import Mathlib

/-!
Verification of the onefeed-th-backend-api collection pipeline and cached
read path, shallowly embedded from the Go sources
(`internal/service/collector_service.go`, `internal/service/news_service.go`,
the redis client, the sqlc query `ListNews` and the dto/converter helpers).

External collaborators (feed parser HTML scraping, database driver failures,
redis availability) are supplied as explicit environment parameters; machine
`int32` arithmetic is modelled with explicit wrapping where it matters.
-/

/-! ## Collector data model (collector_service.go) -/

/-- A feed source row (sqlc `Source`): name and RSS URL. -/
structure Source where
  name : String
  rssUrl : String
deriving DecidableEq

/-- `gofeed.Image`: the explicit feed-level image of an item. -/
structure FeedImage where
  url : String
deriving DecidableEq

/-- `gofeed.Enclosure`: a media enclosure attached to an item. -/
structure Enclosure where
  url : String
deriving DecidableEq

/-- `gofeed.Item`: fields of a raw feed item read by the collector. -/
structure RawItem where
  title : String
  link : String
  image : Option FeedImage
  enclosures : List Enclosure
  description : String
  content : String
  publishedParsed : Option Int
deriving DecidableEq

/-- `bulkInsertNewsParams` from collector_service.go: one normalized record. -/
structure bulkInsertNewsParams where
  title : String
  link : String
  source : String
  imageUrl : String
  publishDate : Option Int
deriving DecidableEq

/-- Go `strings.Split raw "|"` on the character list of the string:
splitting at every pipe character, keeping empty segments. -/
def splitOnPipe : List Char → List (List Char)
  | [] => [[]]
  | c :: cs =>
    if c = '|' then [] :: splitOnPipe cs
    else
      match splitOnPipe cs with
      | [] => [[c]]
      | s :: ss => (c :: s) :: ss

/-- `sanitizeLink` from collector_service.go: an empty link stays empty;
a link with more than one pipe-separated part becomes its last part;
otherwise the link is returned unchanged. -/
def sanitizeLink (raw : String) : String :=
  if raw = "" then ""
  else
    let parts := splitOnPipe raw.data
    if 1 < parts.length then String.mk (parts.getLastD []) else raw

/-- `extractImage` from collector_service.go. The goquery scrape of the first
`<img src=...>` of an HTML fragment is an external library call, passed in as
the oracle `firstImgSrc` (`none` covers both a parse error and no img/src). -/
def extractImage (firstImgSrc : String → Option String) (item : RawItem) : String :=
  match item.image with
  | some img => img.url
  | none =>
    match item.enclosures with
    | e :: _ => e.url
    | [] =>
      let html := if item.description = "" then item.content else item.description
      if html = "" then ""
      else
        match firstImgSrc html with
        | some src => src
        | none => ""

/-- The per-item normalization performed in the worker loop of
`CollectNewsFromSource` (collector_service.go lines 103-109). -/
def normalizeItem (firstImgSrc : String → Option String) (srcName : String)
    (item : RawItem) : bulkInsertNewsParams :=
  { title := item.title
    link := sanitizeLink item.link
    source := srcName
    imageUrl := extractImage firstImgSrc item
    publishDate := item.publishedParsed }

/-- Resolution of the external nondeterminism of one fetch worker:
it found the collect context already cancelled at its initial check, or
`parser.ParseURLWithContext` failed, or parsing yielded `items` and the
worker observed `feedCtx.Done()` at iteration `cancelAt` of its item loop
(`none`, or an index past the end, meaning it was never observed). -/
inductive FetchOutcome where
  | cancelledAtStart
  | parseError (msg : String)
  | parsed (items : List RawItem) (cancelAt : Option Nat)

/-- What one worker goroutine appends to the shared `newsItems` slice.
A worker that is cancelled at start, fails to parse, or observes
cancellation during its item loop returns before the `mu.Lock()` append,
so it contributes nothing. -/
def workerContribution (firstImgSrc : String → Option String) (src : Source) :
    FetchOutcome → List bulkInsertNewsParams
  | .cancelledAtStart => []
  | .parseError _ => []
  | .parsed items cancelAt =>
    match cancelAt with
    | some k => if k < items.length then [] else items.map (normalizeItem firstImgSrc src.name)
    | none => items.map (normalizeItem firstImgSrc src.name)

/-- Environment resolving all external nondeterminism of one collection run. -/
structure CollectEnv where
  /-- Result of `s.repo.SourceRepository.GetAllSources`. -/
  catalog : Except String (List Source)
  /-- Outcome of the worker launched for the i-th source. -/
  fetch : Nat → FetchOutcome
  /-- The goquery img-src scrape, shared by all workers. -/
  firstImgSrc : String → Option String
  /-- Whether the final `select` took the `collectCtx.Done()` branch
  (the shared 5-minute deadline elapsed with workers outstanding). -/
  timedOut : Bool
  /-- Driver error injected into the i-th `BulkInsertNews` call, if any. -/
  batchFail : Nat → Option String
  /-- Whether `redis.RemoveKeyContaining ctx "news"` succeeds. -/
  invalidateOk : Bool

/-- The merged `newsItems` collection: every worker appends its whole local
batch under one mutex; the claims proved below are insensitive to the
append interleaving, which is fixed here to source order. -/
def mergedItems (env : CollectEnv) (srcs : List Source) : List bulkInsertNewsParams :=
  srcs.enum.flatMap fun p => workerContribution env.firstImgSrc p.2 (env.fetch p.1)

/-! ## Batch persister (insertNewsWithBatch) -/

/-- The news table, abstracted to its rows; `link` is the unique key. -/
abbrev Db := List bulkInsertNewsParams

/-- Effect of inserting one row under `ON CONFLICT (link) DO NOTHING`:
a row whose link already exists is skipped. -/
def insertRow (db : Db) (r : bulkInsertNewsParams) : Db :=
  if db.any (fun x => x.link == r.link) then db else db ++ [r]

/-- Effect of one multi-row insert statement on the news table. -/
def insertRows (db : Db) (batch : List bulkInsertNewsParams) : Db :=
  batch.foldl insertRow db

/-- Fuel-driven worker for `batchChunks`; the fuel is an upper bound on the
list length, so the zero-fuel case is only ever reached on the empty list. -/
def batchChunksAux (fuel : Nat) (l : List bulkInsertNewsParams) : List (List bulkInsertNewsParams) :=
  match fuel, l with
  | _, [] => []
  | 0, _ => []
  | fuel + 1, l => l.take 100 :: batchChunksAux fuel (l.drop 100)

/-- The slicing `newsItems[i:min(i+100, len)]` of the batch loop:
successive chunks of at most 100 records, in order. -/
def batchChunks (l : List bulkInsertNewsParams) : List (List bulkInsertNewsParams) :=
  batchChunksAux l.length l

/-- The placeholder tuple written for the j-th row of a batch:
`($a,$a+1,$a+2,$a+3,$a+4,NOW())` with `a = j*5+1`. -/
def placeholderTuple (j : Nat) : String :=
  let a := j * 5 + 1
  "($" ++ toString a ++ ",$" ++ toString (a + 1) ++ ",$" ++ toString (a + 2) ++
    ",$" ++ toString (a + 3) ++ ",$" ++ toString (a + 4) ++ ",NOW())"

/-- The SQL text built by the strings.Builder of `insertNewsWithBatch` for
one batch: base insert, comma-separated placeholder tuples, conflict clause. -/
def buildBatchQuery (batch : List bulkInsertNewsParams) : String :=
  "INSERT INTO news (title, link, source, image_url, publish_date, fetched_at) VALUES " ++
    String.intercalate "," ((List.range batch.length).map placeholderTuple) ++
    " ON CONFLICT (link) DO NOTHING;"

/-- The batch loop of `insertNewsWithBatch`: executes batches in order,
recording each attempted query; a failing batch commits nothing, stops the
loop and yields the error `batch insert failed: <driver error>`. -/
def insertNewsLoop (fail : Nat → Option String) :
    Nat → Db → List String → List (List bulkInsertNewsParams) →
    Db × List String × Option String
  | _, db, tr, [] => (db, tr, none)
  | idx, db, tr, b :: bs =>
    let tr2 := tr ++ [buildBatchQuery b]
    match fail idx with
    | some e => (db, tr2, some ("batch insert failed: " ++ e))
    | none => insertNewsLoop fail (idx + 1) (insertRows db b) tr2 bs

/-- `insertNewsWithBatch` from collector_service.go: final table state, the
queries attempted, and the error returned (if any). -/
def insertNewsWithBatch (fail : Nat → Option String) (db : Db)
    (newsItems : List bulkInsertNewsParams) : Db × List String × Option String :=
  insertNewsLoop fail 0 db [] (batchChunks newsItems)

/-! ## Cache invalidator and the collection run -/

/-- `redisClient.RemoveKeyContaining` (rds client): SCAN with pattern
`*containKey*` plus DEL; on success every key containing the substring is
removed from the cache. -/
def RemoveKeyContaining (cache : List String) (containKey : String) : List String :=
  cache.filter fun k => !(decide (containKey.data <:+: k.data))

/-- Terminal errors of `CollectNewsFromSource`. -/
inductive RunError where
  | catalogError (e : String)
  | timeoutError
  | persistenceError (e : String)
  | cacheError
deriving DecidableEq

/-- Observable side-effecting steps of a collection run, in order. -/
inductive RunEvent where
  | persist (query : String)
  | invalidate
deriving DecidableEq

instance {ε α : Type} [DecidableEq ε] [DecidableEq α] : DecidableEq (Except ε α) := fun x y =>
  match x, y with
  | .ok a, .ok b =>
    if h : a = b then .isTrue (by rw [h]) else .isFalse (by intro hc; cases hc; exact h rfl)
  | .ok _, .error _ => .isFalse (by intro hc; cases hc)
  | .error _, .ok _ => .isFalse (by intro hc; cases hc)
  | .error a, .error b =>
    if h : a = b then .isTrue (by rw [h]) else .isFalse (by intro hc; cases hc; exact h rfl)

/-- Result of one collection run: returned value, final news table, final
cache keys, and the ordered side effects performed. -/
structure RunResult where
  result : Except RunError Unit
  db : Db
  cache : List String
  events : List RunEvent
deriving DecidableEq

/-- `CollectNewsFromSource` from collector_service.go: get sources, fan out
workers, join against the shared deadline, batch-insert the merged items,
then purge the `news` cache keys. -/
def CollectNewsFromSource (env : CollectEnv) (db : Db) (cache : List String) : RunResult :=
  match env.catalog with
  | .error e => ⟨.error (.catalogError e), db, cache, []⟩
  | .ok srcs =>
    if env.timedOut then ⟨.error .timeoutError, db, cache, []⟩
    else
      let items := mergedItems env srcs
      let ins := insertNewsWithBatch env.batchFail db items
      match ins.2.2 with
      | some e => ⟨.error (.persistenceError e), ins.1, cache, ins.2.1.map RunEvent.persist⟩
      | none =>
        if env.invalidateOk then
          ⟨.ok (), ins.1, RemoveKeyContaining cache "news",
            ins.2.1.map RunEvent.persist ++ [RunEvent.invalidate]⟩
        else
          ⟨.error .cacheError, ins.1, cache,
            ins.2.1.map RunEvent.persist ++ [RunEvent.invalidate]⟩

/-! ## Cached read path data model (news_service.go, sqlc, dto, converter) -/

/-- A persisted news row (sqlc model `News`); `imageUrl` and `publishDate`
are nullable columns, timestamps are modelled as integers. -/
structure News where
  title : String
  link : String
  source : String
  imageUrl : Option String
  publishDate : Option Int
deriving DecidableEq

/-- `dto.NewsListGetRequest` (Page and Limit are `int32` in Go). -/
structure NewsListGetRequest where
  page : Int
  limit : Int
  source : List String
deriving DecidableEq

/-- `dto.NewsListGetResponse`; `publishedAt` is a `time.Time`, modelled as an
integer with `0` as the zero time. -/
structure NewsListGetResponse where
  title : String
  source : String
  publishedAt : Int
  link : String
  image : String
deriving DecidableEq

/-- `converter.PGTypeTimestampToTime`: a NULL timestamp becomes the zero time. -/
def PGTypeTimestampToTime : Option Int → Int
  | none => 0
  | some t => t

/-- The response-building loop of `GetNews` (news_service.go lines 94-102);
a NULL `image_url` reads as the empty string via `pgtype.Text.String`. -/
def newsToResponse (n : News) : NewsListGetResponse :=
  { title := n.title
    source := n.source
    publishedAt := PGTypeTimestampToTime n.publishDate
    link := n.link
    image := n.imageUrl.getD "" }

/-- Postgres `ORDER BY publish_date DESC` comparison on a nullable column:
descending, with NULL ordered first (NULLS FIRST is the Postgres default
for descending order). -/
def pubDesc : Option Int → Option Int → Prop
  | none, _ => True
  | some _, none => False
  | some a, some b => b ≤ a

instance : DecidableRel pubDesc := fun x y =>
  match x, y with
  | none, _ => .isTrue trivial
  | some _, none => .isFalse not_false
  | some a, some b => inferInstanceAs (Decidable (b ≤ a))

/-- The `ORDER BY publish_date DESC` row order. -/
def pubDescRow (a b : News) : Prop := pubDesc a.publishDate b.publishDate

instance : DecidableRel pubDescRow := fun a b =>
  inferInstanceAs (Decidable (pubDesc a.publishDate b.publishDate))

instance : IsTotal News pubDescRow where
  total a b := by
    unfold pubDescRow pubDesc
    cases a.publishDate <;> cases b.publishDate <;> simp <;> omega

instance : IsTrans News pubDescRow where
  trans a b c := by
    unfold pubDescRow pubDesc
    cases a.publishDate <;> cases b.publishDate <;> cases c.publishDate <;> simp <;> omega

/-- `sqlc.ListNewsParams`. -/
structure ListNewsParams where
  sources : List String
  pageOffset : Int
  pageLimit : Int
deriving DecidableEq

/-- Semantics of the sqlc query `ListNews` (news.sql): filter rows whose
source is in the array, order by publish date descending, then apply
OFFSET and LIMIT; Postgres rejects a negative OFFSET or LIMIT. -/
def ListNews (table : List News) (p : ListNewsParams) : Except String (List News) :=
  if p.pageOffset < 0 ∨ p.pageLimit < 0 then .error "OFFSET must not be negative"
  else
    .ok (((((table.filter fun r => p.sources.contains r.source).insertionSort
      pubDescRow).drop p.pageOffset.toNat).take p.pageLimit.toNat))

/-- Outcome of `redis.Get` on the derived key: a deserialized cached value,
the `redis.Nil` key-not-found error, or another backend error. -/
inductive CacheGetOutcome where
  | ok (v : List NewsListGetResponse)
  | errNil
  | errBackend (e : String)

/-- Environment resolving the external collaborators of one `GetNews` call. -/
structure QueryEnv where
  /-- What `s.redis.Get` yields for the derived cache key. -/
  cacheGet : CacheGetOutcome
  /-- Driver error injected into the storage query, if any. -/
  dbFail : Option String
  /-- Current contents of the news table. -/
  table : List News
  /-- Whether the best-effort `s.redis.Set` write-back succeeds. -/
  cacheSetOk : Bool

/-- Go `fmt.Sprintf %v` rendering of a string slice. -/
def goFmtStringSlice (l : List String) : String :=
  "[" ++ String.intercalate " " l ++ "]"

/-- The redis key derived in `GetNews` (news_service.go line 36), built from
the already-normalized page and limit. -/
def newsCacheKey (src : List String) (page limit : Int) : String :=
  "news:source=" ++ goFmtStringSlice src ++ ":page=" ++ toString page ++
    ":limit=" ++ toString limit

/-- Normalization of the page parameter (news_service.go lines 28-30). -/
def normalizePage (p : Int) : Int := if p ≤ 0 then 1 else p

/-- Normalization of the page-size parameter (news_service.go lines 31-33). -/
def normalizeLimit (l : Int) : Int := if l ≤ 0 ∨ 100 < l then 20 else l

/-- Two's-complement wrap-around of Go `int32` arithmetic. -/
def wrap32 (x : Int) : Int := (x + 2 ^ 31) % 2 ^ 32 - 2 ^ 31

/-- Application errors surfaced by `GetNews` (internal/errors). -/
inductive AppError where
  | validationError (code : String)
  | databaseError (code : String)
deriving DecidableEq

/-- Result of one `GetNews` call: the returned value, the cache key looked
up (if the cache was consulted), the storage query parameters (if storage
was queried), and the outcome of the best-effort cache write-back (if one
was attempted). -/
structure GetNewsResult where
  result : Except AppError (List NewsListGetResponse)
  cacheKey : Option String
  dbQuery : Option ListNewsParams
  cacheWrite : Option Bool
deriving DecidableEq

/-- The storage path of `GetNews` (news_service.go lines 74-118): query the
database, map rows to responses, and attempt the best-effort cache
write-back whose outcome is logged but never fails the request. -/
def GetNewsFromDb (env : QueryEnv) (key : String) (params : ListNewsParams) : GetNewsResult :=
  match env.dbFail with
  | some _ =>
    { result := .error (.databaseError "DB_QUERY_FAILED")
      cacheKey := some key, dbQuery := some params, cacheWrite := none }
  | none =>
    match ListNews env.table params with
    | .error _ =>
      { result := .error (.databaseError "DB_QUERY_FAILED")
        cacheKey := some key, dbQuery := some params, cacheWrite := none }
    | .ok rows =>
      { result := .ok (rows.map newsToResponse)
        cacheKey := some key, dbQuery := some params, cacheWrite := some env.cacheSetOk }

/-- `GetNews` from news_service.go: reject an empty source filter, normalize
page and limit, try the cache (a hit with at least one record returns
immediately; `redis.Nil` or any other cache error falls through), then take
the storage path with offset `(page-1)*limit` in `int32` arithmetic. -/
def GetNews (env : QueryEnv) (req : NewsListGetRequest) : GetNewsResult :=
  if req.source.length = 0 then
    { result := .error (.validationError "MISSING_SOURCE")
      cacheKey := none, dbQuery := none, cacheWrite := none }
  else
    let page := normalizePage req.page
    let limit := normalizeLimit req.limit
    let key := newsCacheKey req.source page limit
    let params : ListNewsParams :=
      { sources := req.source, pageOffset := wrap32 ((page - 1) * limit), pageLimit := limit }
    match env.cacheGet with
    | .ok v =>
      if 0 < v.length then
        { result := .ok v, cacheKey := some key, dbQuery := none, cacheWrite := none }
      else GetNewsFromDb env key params
    | .errNil => GetNewsFromDb env key params
    | .errBackend _ => GetNewsFromDb env key params

/-! ## Concrete fixtures used by the witnesses and counterexamples -/

/-- A well-known feed source. -/
def srcMacThai : Source := ⟨"MacThai", "https://macthai.com/feed"⟩

/-- A source whose feed will fail to parse in the C4 scenario. -/
def srcBroken : Source := ⟨"Broken", "https://broken.example/feed"⟩

/-- A plain raw item with no image data. -/
def itemA : RawItem :=
  ⟨"story one", "https://macthai.com/a", none, [], "", "", some 100⟩

/-- A second plain raw item. -/
def itemB : RawItem :=
  ⟨"story two", "https://macthai.com/b", none, [], "", "", some 200⟩

/-- A raw item whose image comes from its first enclosure. -/
def itemEnc : RawItem :=
  ⟨"enclosed", "https://macthai.com/c", none, [⟨"https://cdn/img.png"⟩], "", "", none⟩

/-- Environment for the C1 witness: the shared deadline elapsed. -/
def envTimeout : CollectEnv :=
  { catalog := .ok [srcMacThai], fetch := fun _ => .cancelledAtStart,
    firstImgSrc := fun _ => none, timedOut := true,
    batchFail := fun _ => none, invalidateOk := true }

/-- Environment for the C2 counterexample: the single worker parses two
items but observes cancellation at iteration 1 of its item loop. -/
def envC2 : CollectEnv :=
  { catalog := .ok [srcMacThai], fetch := fun _ => .parsed [itemA, itemB] (some 1),
    firstImgSrc := fun _ => none, timedOut := false,
    batchFail := fun _ => none, invalidateOk := true }

/-- Environment for the C4 witness: source 0 fails to parse, source 1
yields one item; persistence and invalidation succeed. -/
def envC4 : CollectEnv :=
  { catalog := .ok [srcBroken, srcMacThai],
    fetch := fun i => if i = 0 then .parseError "bad xml" else .parsed [itemA] none,
    firstImgSrc := fun _ => none, timedOut := false,
    batchFail := fun _ => none, invalidateOk := true }

/-- Environment for the C9 witness: the run reaches invalidation (catalog
and persistence succeed) but the cache purge fails. -/
def envC9 : CollectEnv :=
  { catalog := .ok [srcMacThai], fetch := fun _ => .parsed [] none,
    firstImgSrc := fun _ => none, timedOut := false,
    batchFail := fun _ => none, invalidateOk := false }

/-- Environment for the C10 witness: every source contributes zero records
and invalidation succeeds. -/
def envC10 : CollectEnv :=
  { catalog := .ok [srcMacThai], fetch := fun _ => .parsed [] none,
    firstImgSrc := fun _ => none, timedOut := false,
    batchFail := fun _ => none, invalidateOk := true }

/-- Cache contents for the C10 witness: one news-listing key, one other key. -/
def cacheC10 : List String := ["news:source=[MacThai]:page=1:limit=20", "session:42"]

/-- The n-th distinct record of the C3 counterexample collection. -/
def rowN (n : Nat) : bulkInsertNewsParams := ⟨"t", toString n, "S", "", none⟩

/-- 101 records with distinct links: exactly two batches of the batch loop. -/
def items101 : List bulkInsertNewsParams := (List.range 101).map rowN

/-- Batch executor for which every batch fails with the same driver error. -/
def failAll : Nat → Option String := fun _ => some "connection reset by peer"

/-- Batch executor for which batch 0 succeeds and every later batch fails
with the same driver error. -/
def failTail : Nat → Option String :=
  fun i => if i = 0 then none else some "connection reset by peer"

/-- One persisted news row of source `a`. -/
def rowA : News := ⟨"Title", "https://a.example/1", "a", none, some 5⟩

/-- Query environment whose cache read fails with a non-`redis.Nil` error. -/
def envC5 : QueryEnv :=
  { cacheGet := .errBackend "connection refused", dbFail := none,
    table := [rowA], cacheSetOk := true }

/-- Query environment with an empty cache (`redis.Nil` on read). -/
def envMiss : QueryEnv :=
  { cacheGet := .errNil, dbFail := none, table := [rowA], cacheSetOk := true }

/-- The C7 counterexample request: a valid positive page so large that the
`int32` offset computation wraps around to exactly 0. -/
def reqC7 : NewsListGetRequest := { page := 1073741825, limit := 20, source := ["a"] }

/-- An ordinary valid request, used by witnesses. -/
def reqA : NewsListGetRequest := { page := 2, limit := 20, source := ["a"] }

/-! ## Helper lemmas -/

/-- Go `strings.Split` never returns an empty slice. -/
theorem splitOnPipe_ne_nil (cs : List Char) : splitOnPipe cs ≠ [] := by
  cases cs with
  | nil => simp [splitOnPipe]
  | cons c cs =>
    simp only [splitOnPipe]
    split
    · simp
    · split <;> simp

/-- The split has more than one part exactly when the string contains a pipe. -/
theorem one_lt_splitOnPipe_length (cs : List Char) :
    1 < (splitOnPipe cs).length ↔ '|' ∈ cs := by
  induction cs with
  | nil => simp [splitOnPipe]
  | cons c cs ih =>
    simp only [splitOnPipe]
    by_cases hc : c = '|'
    · subst hc
      rw [if_pos rfl]
      simp only [List.length_cons, List.mem_cons]
      have h1 : 0 < (splitOnPipe cs).length :=
        List.length_pos.mpr (splitOnPipe_ne_nil cs)
      constructor
      · intro _
        exact Or.inl trivial
      · intro _
        omega
    · rw [if_neg hc]
      rcases hsp : splitOnPipe cs with _ | ⟨s, ss⟩
      · exact absurd hsp (splitOnPipe_ne_nil cs)
      · rw [hsp] at ih
        simp only [List.length_cons] at ih ⊢
        rw [List.mem_cons]
        constructor
        · intro h
          exact Or.inr (ih.mp h)
        · rintro (h | h)
          · exact absurd h.symm hc
          · exact ih.mpr h

/-- Concatenating the chunks gives back the original collection. -/
theorem batchChunksAux_flatten (fuel : Nat) :
    ∀ l : List bulkInsertNewsParams, l.length ≤ fuel →
      (batchChunksAux fuel l).flatten = l := by
  induction fuel with
  | zero =>
    intro l h
    have : l = [] := List.length_eq_zero.mp (Nat.le_zero.mp h)
    subst this
    simp [batchChunksAux]
  | succ fuel ih =>
    intro l h
    cases l with
    | nil => simp [batchChunksAux]
    | cons x xs =>
      simp only [batchChunksAux, List.flatten_cons]
      rw [ih _ (by
          simp only [List.length_drop, List.length_cons] at h ⊢
          omega),
        List.take_append_drop]

/-- Concatenating the batches gives back the original collection. -/
theorem batchChunks_flatten (l : List bulkInsertNewsParams) :
    (batchChunks l).flatten = l :=
  batchChunksAux_flatten l.length l le_rfl

/-- Every chunk is non-empty and holds at most 100 records. -/
theorem batchChunksAux_mem (fuel : Nat) :
    ∀ (l : List bulkInsertNewsParams) (b : List bulkInsertNewsParams),
      b ∈ batchChunksAux fuel l → b ≠ [] ∧ b.length ≤ 100 := by
  induction fuel with
  | zero =>
    intro l b hb
    cases l <;> simp [batchChunksAux] at hb
  | succ fuel ih =>
    intro l b hb
    cases l with
    | nil => simp [batchChunksAux] at hb
    | cons x xs =>
      simp only [batchChunksAux, List.mem_cons] at hb
      rcases hb with hb | hb
      · subst hb
        refine ⟨by simp, List.length_take_le _ _⟩
      · exact ih _ _ hb

/-- Every batch is non-empty and holds at most 100 records. -/
theorem batchChunks_mem (l b : List bulkInsertNewsParams) (hb : b ∈ batchChunks l) :
    b ≠ [] ∧ b.length ≤ 100 :=
  batchChunksAux_mem l.length l b hb

/-- Unfolding of the batch loop when every batch succeeds. -/
theorem insertNewsLoop_ok (fail : Nat → Option String)
    (bs : List (List bulkInsertNewsParams)) :
    ∀ (idx : Nat) (db : Db) (tr : List String),
      (∀ i, i < bs.length → fail (idx + i) = none) →
      insertNewsLoop fail idx db tr bs =
        (bs.foldl insertRows db, tr ++ bs.map buildBatchQuery, none) := by
  induction bs with
  | nil =>
    intro idx db tr _
    simp [insertNewsLoop]
  | cons b bs ih =>
    intro idx db tr h
    have h0 : fail idx = none := by simpa using h 0 (by simp)
    simp only [insertNewsLoop, h0]
    rw [ih (idx + 1) (insertRows db b) (tr ++ [buildBatchQuery b])
      (fun i hi => by
        rw [show idx + 1 + i = idx + (i + 1) by omega]
        exact h (i + 1) (by simpa using Nat.succ_lt_succ hi))]
    simp

/-- Unfolding of the batch loop when the first failing batch is batch `k`:
the loop commits the first `k` batches, attempts batch `k`, and stops with
the wrapped driver error. -/
theorem insertNewsLoop_stops (fail : Nat → Option String)
    (bs : List (List bulkInsertNewsParams)) :
    ∀ (idx : Nat) (db : Db) (tr : List String) (k : Nat) (e : String),
      k < bs.length → fail (idx + k) = some e → (∀ i, i < k → fail (idx + i) = none) →
      insertNewsLoop fail idx db tr bs =
        ((bs.take k).foldl insertRows db,
          tr ++ (bs.take (k + 1)).map buildBatchQuery,
          some ("batch insert failed: " ++ e)) := by
  induction bs with
  | nil =>
    intro idx db tr k e hk
    exact absurd hk (by simp)
  | cons b bs ih =>
    intro idx db tr k e hk hke hlt
    cases k with
    | zero =>
      have h0 : fail idx = some e := by simpa using hke
      simp [insertNewsLoop, h0]
    | succ k =>
      have h0 : fail idx = none := by simpa using hlt 0 (Nat.succ_pos k)
      simp only [insertNewsLoop, h0]
      rw [ih (idx + 1) (insertRows db b) (tr ++ [buildBatchQuery b]) k e
        (by simpa using Nat.lt_of_succ_lt_succ hk)
        (by rw [show idx + 1 + k = idx + (k + 1) by omega]; exact hke)
        (fun i hi => by
          rw [show idx + 1 + i = idx + (i + 1) by omega]
          exact hlt (i + 1) (Nat.succ_lt_succ hi))]
      simp [List.take_succ_cons, List.foldl_cons]

/-- What an `ok` result of the `ListNews` query satisfies: bounded length,
sources inside the filter array, rows in descending publish-date order. -/
theorem ListNews_ok_spec (table : List News) (p : ListNewsParams) (rows : List News)
    (h : ListNews table p = .ok rows) :
    rows.length ≤ p.pageLimit.toNat ∧ (∀ r ∈ rows, r.source ∈ p.sources) ∧
      List.Sorted pubDescRow rows := by
  unfold ListNews at h
  split at h
  · simp at h
  · injection h with h
    subst h
    refine ⟨List.length_take_le _ _, ?_, ?_⟩
    · intro r hr
      have h2 : r ∈ ((table.filter fun x => p.sources.contains x.source).insertionSort
          pubDescRow) :=
        List.drop_subset _ _ (List.take_subset _ _ hr)
      have h3 : r ∈ table.filter fun x => p.sources.contains x.source :=
        (List.perm_insertionSort pubDescRow _).subset h2
      have h4 := (List.mem_filter.mp h3).2
      simpa using h4
    · have hs := List.sorted_insertionSort pubDescRow
        (table.filter fun x => p.sources.contains x.source)
      exact List.Pairwise.sublist
        ((List.take_sublist _ _).trans (List.drop_sublist _ _)) hs

/-- Keys surviving the purge do not contain the purged substring. -/
theorem RemoveKeyContaining_spec (cache : List String) (sub : String) :
    ∀ k ∈ RemoveKeyContaining cache sub, ¬(sub.data <:+: k.data) := by
  intro k hk
  have h := (List.mem_filter.mp hk).2
  simpa using h

/-- A wrapped `int32` value in range is unchanged. -/
theorem wrap32_eq_self (x : Int) (h0 : 0 ≤ x) (h1 : x < 2 ^ 31) : wrap32 x = x := by
  unfold wrap32
  rw [Int.emod_eq_of_lt (by omega) (by omega)]
  omega

/-- The normalized page is at least 1. -/
theorem normalizePage_pos (p : Int) : 1 ≤ normalizePage p := by
  unfold normalizePage
  split <;> omega

/-- The normalized limit lies in `[1, 100]`. -/
theorem normalizeLimit_bounds (l : Int) : 1 ≤ normalizeLimit l ∧ normalizeLimit l ≤ 100 := by
  unfold normalizeLimit
  split
  · omega
  · rename_i h
    push_neg at h
    omega

/-- `invalidate` never occurs among mapped persistence events. -/
theorem invalidate_not_mem_persist (tr : List String) :
    RunEvent.invalidate ∉ tr.map RunEvent.persist := by
  intro h
  rcases List.mem_map.mp h with ⟨q, _, hq⟩
  cases hq

/-! ## Claim theorems -/

/-- Claim C1: if the shared 5-minute collection deadline elapses while fetch
workers are still outstanding, `CollectNewsFromSource` returns a timeout
error and persists nothing — no accumulated record is handed to the batch
persister (no persistence event, table unchanged) and the cache is not
purged (cache unchanged): the run is all-or-nothing at the deadline
boundary. -/
theorem c1_timeout_all_or_nothing (env : CollectEnv) (db : Db) (cache : List String)
    (srcs : List Source) (hcat : env.catalog = .ok srcs) (hto : env.timedOut = true) :
    CollectNewsFromSource env db cache = ⟨.error .timeoutError, db, cache, []⟩ := by
  unfold CollectNewsFromSource
  rw [hcat]
  simp [hto]

/-- Witness for C1 at a concrete timed-out environment. -/
theorem c1_witness :
    CollectNewsFromSource envTimeout [] ["news:source=[MacThai]:page=1:limit=20"] =
      ⟨.error .timeoutError, [], ["news:source=[MacThai]:page=1:limit=20"], []⟩ :=
  c1_timeout_all_or_nothing envTimeout [] ["news:source=[MacThai]:page=1:limit=20"]
    [srcMacThai] rfl rfl

/-- Counterexample to C2 as stated: the worker for the single source parses
two items and observes the elapsed deadline at iteration 1, having
accumulated the first normalized record; yet the merged collection is empty
and nothing is persisted — the accumulated record is NOT contributed. -/
theorem c2_cex :
    ([itemA, itemB].take 1).map (normalizeItem (fun _ => none) srcMacThai.name) ≠ [] ∧
    mergedItems envC2 [srcMacThai] = [] ∧
    (CollectNewsFromSource envC2 [] []).result = .ok () ∧
    (CollectNewsFromSource envC2 [] []).db = [] := by
  refine ⟨by decide, by decide, by decide, by decide⟩

/-- Claim C2 (amended): a fetch worker that observes an elapsed deadline
during item-by-item processing of its feed exits early and contributes
NONE of the records it has accumulated so far — its partial batch is
discarded, since the worker returns before the locked append. -/
theorem c2_cancelled_worker_discards (firstImgSrc : String → Option String)
    (src : Source) (items : List RawItem) (k : Nat) (hk : k < items.length) :
    workerContribution firstImgSrc src (.parsed items (some k)) = [] := by
  simp [workerContribution, hk]

/-- Witness for the amended C2 at a concrete cancelled worker. -/
theorem c2_witness :
    workerContribution (fun _ => none) srcMacThai (.parsed [itemA, itemB] (some 1)) = [] :=
  c2_cancelled_worker_discards (fun _ => none) srcMacThai [itemA, itemB] 1 (by decide)

set_option maxRecDepth 100000 in
/-- Counterexample to C3 as stated: two executions of `insertNewsWithBatch`
on the same 101-record collection, one failing at batch 0 (zero batches
committed) and one failing at batch 1 (one batch of 100 rows committed),
return the very same error — so the returned error does not identify how
many batches succeeded before the failure. -/
theorem c3_cex :
    (insertNewsWithBatch failAll [] items101).2.2 =
      (insertNewsWithBatch failTail [] items101).2.2 ∧
    (insertNewsWithBatch failAll [] items101).2.2 =
      some "batch insert failed: connection reset by peer" ∧
    (insertNewsWithBatch failAll [] items101).1.length = 0 ∧
    (insertNewsWithBatch failTail [] items101).1.length = 100 := by
  refine ⟨by decide, by decide, by decide, by decide⟩

/-- Claim C3 (amended): for every non-empty record collection,
`insertNewsWithBatch` writes the records in order in successive batches of
at most 100 rows (all of them full except possibly the last), each batch as
one multi-row insert ending in `ON CONFLICT (link) DO NOTHING`; on a
failing batch it attempts no further batches, leaves earlier committed
batches in place, and returns a persistence error wrapping the driver error
(the error does not identify how many batches succeeded). -/
theorem c3_batch_persist (fail : Nat → Option String) (db : Db)
    (items : List bulkInsertNewsParams) (hne : items ≠ []) :
    (batchChunks items).flatten = items ∧
    (∀ b ∈ batchChunks items, b ≠ [] ∧ b.length ≤ 100) ∧
    (∀ b : List bulkInsertNewsParams,
      ∃ pre, buildBatchQuery b = pre ++ " ON CONFLICT (link) DO NOTHING;") ∧
    (∀ k e, k < (batchChunks items).length → fail k = some e →
      (∀ i, i < k → fail i = none) →
      insertNewsWithBatch fail db items =
        (((batchChunks items).take k).foldl insertRows db,
          ((batchChunks items).take (k + 1)).map buildBatchQuery,
          some ("batch insert failed: " ++ e))) ∧
    ((∀ i, i < (batchChunks items).length → fail i = none) →
      insertNewsWithBatch fail db items =
        ((batchChunks items).foldl insertRows db,
          (batchChunks items).map buildBatchQuery, none)) := by
  refine ⟨batchChunks_flatten items, fun b hb => batchChunks_mem items b hb,
    fun b => ⟨_, rfl⟩, ?_, ?_⟩
  · intro k e hk hke hlt
    unfold insertNewsWithBatch
    rw [insertNewsLoop_stops fail (batchChunks items) 0 db [] k e hk
      (by simpa using hke) (fun i hi => by simpa using hlt i hi)]
    simp
  · intro hall
    unfold insertNewsWithBatch
    rw [insertNewsLoop_ok fail (batchChunks items) 0 db []
      (fun i hi => by simpa using hall i hi)]
    simp

/-- Witness for the amended C3: with batch 1 as the first failing batch on
the concrete 101-record collection, the loop commits batch 0, attempts
batch 1 and stops with the wrapped driver error. -/
theorem c3_witness :
    insertNewsWithBatch failTail [] items101 =
      (((batchChunks items101).take 1).foldl insertRows [],
        ((batchChunks items101).take 2).map buildBatchQuery,
        some ("batch insert failed: " ++ "connection reset by peer")) :=
  (c3_batch_persist failTail [] items101 (by decide)).2.2.2.1 1
    "connection reset by peer" (by decide) (by decide)
    (fun i hi => by interval_cases i <;> decide)

/-- Claim C4: when some sources' fetch/parse fails, the run does not fail on
their account — a failing source contributes zero records, the merged
collection is exactly the concatenation of all workers' contributions, and
(given persistence and invalidation succeed) the run succeeds with the
remaining sources' records persisted. -/
theorem c4_partial_source_failure (env : CollectEnv) (db : Db) (cache : List String)
    (srcs : List Source) (hcat : env.catalog = .ok srcs) (hto : env.timedOut = false)
    (hins : (insertNewsWithBatch env.batchFail db (mergedItems env srcs)).2.2 = none)
    (hinv : env.invalidateOk = true) :
    (CollectNewsFromSource env db cache).result = .ok () ∧
    (CollectNewsFromSource env db cache).db =
      (insertNewsWithBatch env.batchFail db (mergedItems env srcs)).1 ∧
    (∀ (o : String → Option String) (s : Source) (e : String),
      workerContribution o s (.parseError e) = []) ∧
    mergedItems env srcs =
      srcs.enum.flatMap fun p => workerContribution env.firstImgSrc p.2 (env.fetch p.1) := by
  unfold CollectNewsFromSource
  rw [hcat]
  simp only [hto, Bool.false_eq_true, if_false, hins, hinv, if_true]
  exact ⟨trivial, trivial, fun o s e => rfl, rfl⟩

/-- Witness for C4: source 0 fails to parse, source 1 succeeds, and the run
succeeds with source 1's record persisted. -/
theorem c4_witness :
    (CollectNewsFromSource envC4 [] []).result = .ok () ∧
    (CollectNewsFromSource envC4 [] []).db =
      (insertNewsWithBatch envC4.batchFail [] (mergedItems envC4 [srcBroken, srcMacThai])).1 :=
  ⟨(c4_partial_source_failure envC4 [] [] [srcBroken, srcMacThai] rfl rfl (by decide) rfl).1,
   (c4_partial_source_failure envC4 [] [] [srcBroken, srcMacThai] rfl rfl (by decide) rfl).2.1⟩

/-- The storage path always records the cache key and query parameters. -/
theorem GetNewsFromDb_accesses (env : QueryEnv) (key : String) (params : ListNewsParams) :
    (GetNewsFromDb env key params).cacheKey = some key ∧
    (GetNewsFromDb env key params).dbQuery = some params := by
  obtain ⟨cg, dbf, tbl, cs⟩ := env
  unfold GetNewsFromDb
  cases dbf
  · rcases h : ListNews tbl params with _ | rows <;> simp [h]
  · simp

/-- The storage path fails only with the wrapped database error. -/
theorem GetNewsFromDb_err (env : QueryEnv) (key : String) (params : ListNewsParams)
    (err : AppError) (h : (GetNewsFromDb env key params).result = .error err) :
    err = .databaseError "DB_QUERY_FAILED" := by
  obtain ⟨cg, dbf, tbl, cs⟩ := env
  unfold GetNewsFromDb at h
  cases dbf
  · rcases hl : ListNews tbl params with e | rows <;> simp [hl] at h <;> simp_all
  · simp_all

/-- A successful storage path result is the response mapping of an `ok`
result of the `ListNews` query. -/
theorem GetNewsFromDb_ok (env : QueryEnv) (key : String) (params : ListNewsParams)
    (resps : List NewsListGetResponse)
    (h : (GetNewsFromDb env key params).result = .ok resps) :
    ∃ rows, ListNews env.table params = .ok rows ∧ resps = rows.map newsToResponse := by
  obtain ⟨cg, dbf, tbl, cs⟩ := env
  unfold GetNewsFromDb at h
  cases dbf
  · rcases hl : ListNews tbl params with e | rows <;> simp [hl] at h
    exact ⟨rows, rfl, by simp_all⟩
  · simp_all

/-- The returned value of the storage path does not depend on whether the
best-effort cache write-back succeeds. -/
theorem GetNewsFromDb_cacheSet_irrelevant (env : QueryEnv) (key : String)
    (params : ListNewsParams) (b b' : Bool) :
    (GetNewsFromDb { env with cacheSetOk := b } key params).result =
      (GetNewsFromDb { env with cacheSetOk := b' } key params).result := by
  obtain ⟨cg, dbf, tbl, cs⟩ := env
  unfold GetNewsFromDb
  cases dbf
  · rcases h : ListNews tbl params with e | rows <;> simp [h]
  · simp

/-- An empty source filter short-circuits `GetNews`. -/
theorem GetNews_empty_filter (env : QueryEnv) (req : NewsListGetRequest)
    (h : req.source.length = 0) :
    GetNews env req =
      ⟨.error (.validationError "MISSING_SOURCE"), none, none, none⟩ := by
  simp [GetNews, h]

/-- With a non-empty filter, `GetNews` either returns a non-empty cache hit
without touching storage, or takes the storage path with the normalized
key and parameters. -/
theorem GetNews_shape (env : QueryEnv) (req : NewsListGetRequest)
    (h : req.source.length ≠ 0) :
    (∃ v, env.cacheGet = .ok v ∧ 0 < v.length ∧
      GetNews env req =
        ⟨.ok v, some (newsCacheKey req.source (normalizePage req.page)
          (normalizeLimit req.limit)), none, none⟩) ∨
    GetNews env req =
      GetNewsFromDb env
        (newsCacheKey req.source (normalizePage req.page) (normalizeLimit req.limit))
        ⟨req.source,
          wrap32 ((normalizePage req.page - 1) * normalizeLimit req.limit),
          normalizeLimit req.limit⟩ := by
  unfold GetNews
  rw [if_neg h]
  rcases hc : env.cacheGet with v | _ | e
  · by_cases hv : 0 < v.length
    · exact Or.inl ⟨v, rfl, hv, by simp [hv]⟩
    · exact Or.inr (by simp [hv])
  · exact Or.inr rfl
  · exact Or.inr rfl

/-- The returned value of `GetNews` does not depend on whether the
best-effort cache write-back succeeds. -/
theorem GetNews_cacheSet_irrelevant (env : QueryEnv) (req : NewsListGetRequest)
    (b b' : Bool) :
    (GetNews { env with cacheSetOk := b } req).result =
      (GetNews { env with cacheSetOk := b' } req).result := by
  obtain ⟨cg, dbf, tbl, cs⟩ := env
  by_cases hs : req.source.length = 0
  · rw [GetNews_empty_filter _ _ hs, GetNews_empty_filter _ _ hs]
  · unfold GetNews
    rw [if_neg hs, if_neg hs]
    cases cg with
    | ok v =>
      by_cases hv : 0 < v.length
      · simp [hv]
      · simp only [hv, if_false]
        exact GetNewsFromDb_cacheSet_irrelevant ⟨.ok v, dbf, tbl, cs⟩ _ _ b b'
    | errNil => exact GetNewsFromDb_cacheSet_irrelevant ⟨.errNil, dbf, tbl, cs⟩ _ _ b b'
    | errBackend e => exact GetNewsFromDb_cacheSet_irrelevant ⟨.errBackend e, dbf, tbl, cs⟩ _ _ b b'

/-- With a non-empty filter, the cache is always consulted under the key
derived from the normalized page and limit. -/
theorem GetNews_cacheKey (env : QueryEnv) (req : NewsListGetRequest)
    (hs : req.source.length ≠ 0) :
    (GetNews env req).cacheKey =
      some (newsCacheKey req.source (normalizePage req.page) (normalizeLimit req.limit)) := by
  rcases GetNews_shape env req hs with ⟨v, _, _, heq⟩ | heq <;> rw [heq] <;>
    first
    | rfl
    | exact (GetNewsFromDb_accesses env _ _).1

/-- Whenever storage is queried, the parameters are the normalized filter,
the wrapped `int32` offset, and the normalized limit. -/
theorem GetNews_dbQuery (env : QueryEnv) (req : NewsListGetRequest) (p : ListNewsParams)
    (hs : req.source.length ≠ 0) (h : (GetNews env req).dbQuery = some p) :
    p = ⟨req.source,
      wrap32 ((normalizePage req.page - 1) * normalizeLimit req.limit),
      normalizeLimit req.limit⟩ := by
  rcases GetNews_shape env req hs with ⟨v, _, _, heq⟩ | heq <;> rw [heq] at h
  · simp at h
  · rw [(GetNewsFromDb_accesses env _ _).2] at h
    simp at h
    exact h.symm

/-- Claim C5: a cache-read error other than `redis.Nil` falls through to
storage, the outcome of the best-effort cache write never changes the
returned value, and `GetNews` fails only on invalid input (empty filter) or
on a storage query failure. -/
theorem c5_cache_errors_never_fail (env : QueryEnv) (req : NewsListGetRequest) :
    (∀ e, req.source.length ≠ 0 → env.cacheGet = .errBackend e →
      (GetNews env req).dbQuery ≠ none) ∧
    ((GetNews { env with cacheSetOk := true } req).result =
      (GetNews { env with cacheSetOk := false } req).result) ∧
    (∀ err, (GetNews env req).result = .error err →
      (req.source.length = 0 ∧ err = .validationError "MISSING_SOURCE") ∨
      (err = .databaseError "DB_QUERY_FAILED" ∧ (GetNews env req).dbQuery ≠ none)) := by
  refine ⟨?_, GetNews_cacheSet_irrelevant env req true false, ?_⟩
  · intro e hs hc
    rcases GetNews_shape env req hs with ⟨v, hv, _, _⟩ | heq
    · rw [hc] at hv
      simp at hv
    · rw [heq, (GetNewsFromDb_accesses env _ _).2]
      simp
  · intro err herr
    by_cases hs : req.source.length = 0
    · rw [GetNews_empty_filter _ _ hs] at herr
      simp at herr
      exact Or.inl ⟨hs, herr.symm⟩
    · rcases GetNews_shape env req hs with ⟨v, hv, hlen, heq⟩ | heq
      · rw [heq] at herr
        simp at herr
      · rw [heq] at herr
        refine Or.inr ⟨GetNewsFromDb_err env _ _ err herr, ?_⟩
        rw [heq, (GetNewsFromDb_accesses env _ _).2]
        simp

/-- Witness for C5: with a backend cache-read failure and a healthy
database, the request still reaches storage, and flipping the cache
write-back outcome leaves the returned value unchanged. -/
theorem c5_witness :
    (GetNews envC5 reqA).dbQuery ≠ none ∧
    (GetNews { envC5 with cacheSetOk := true } reqA).result =
      (GetNews { envC5 with cacheSetOk := false } reqA).result :=
  ⟨(c5_cache_errors_never_fail envC5 reqA).1 "connection refused" (by decide) rfl,
   (c5_cache_errors_never_fail envC5 reqA).2.1⟩

/-- Claim C6: `GetNews` normalizes its input before any lookup — an empty
source filter is rejected with a `ValidationError` before any cache or
storage access, a page of at most 0 becomes 1, and a page size of at most 0
or above 100 becomes 20 (visible in the cache key and query parameters). -/
theorem c6_input_normalization (env : QueryEnv) (req : NewsListGetRequest) :
    (req.source.length = 0 →
      GetNews env req = ⟨.error (.validationError "MISSING_SOURCE"), none, none, none⟩) ∧
    (req.source.length ≠ 0 → req.page ≤ 0 →
      (GetNews env req).cacheKey =
        some (newsCacheKey req.source 1 (normalizeLimit req.limit)) ∧
      (∀ p, (GetNews env req).dbQuery = some p →
        p = ⟨req.source, 0, normalizeLimit req.limit⟩)) ∧
    (req.source.length ≠ 0 → (req.limit ≤ 0 ∨ 100 < req.limit) →
      (GetNews env req).cacheKey =
        some (newsCacheKey req.source (normalizePage req.page) 20) ∧
      (∀ p, (GetNews env req).dbQuery = some p →
        p = ⟨req.source, wrap32 ((normalizePage req.page - 1) * 20), 20⟩)) := by
  refine ⟨GetNews_empty_filter env req, ?_, ?_⟩
  · intro hs hp
    have hnp : normalizePage req.page = 1 := by simp [normalizePage, hp]
    constructor
    · rw [GetNews_cacheKey env req hs, hnp]
    · intro p hdq
      rw [GetNews_dbQuery env req p hs hdq, hnp]
      norm_num
      decide
  · intro hs hl
    have hnl : normalizeLimit req.limit = 20 := by simp [normalizeLimit, hl]
    constructor
    · rw [GetNews_cacheKey env req hs, hnl]
    · intro p hdq
      rw [GetNews_dbQuery env req p hs hdq, hnl]

/-- Witness for C6 at concrete inputs: an empty filter is rejected with no
cache or storage access, and a request with page 0 and limit 500 is looked
up under page 1 and limit 20. -/
theorem c6_witness :
    GetNews envMiss { page := 3, limit := 10, source := [] } =
      ⟨.error (.validationError "MISSING_SOURCE"), none, none, none⟩ ∧
    (GetNews envMiss { page := 0, limit := 500, source := ["a"] }).cacheKey =
      some (newsCacheKey ["a"] 1 (normalizeLimit 500)) :=
  ⟨(c6_input_normalization envMiss { page := 3, limit := 10, source := [] }).1 rfl,
   ((c6_input_normalization envMiss { page := 0, limit := 500, source := ["a"] }).2.1
      (by decide) (by decide)).1⟩

/-- Counterexample to C7 as stated: page 1073741825 with limit 20 is a
valid request, but the Go `int32` multiplication `(page-1)*limit` wraps to
exactly 0, so storage is queried with offset 0 — not with the mathematical
(page−1)×pageSize = 21474836480 — and the request is served from storage
as if it were page 1. -/
theorem c7_cex :
    (GetNews envMiss reqC7).dbQuery = some ⟨["a"], 0, 20⟩ ∧
    ((1073741825 : Int) - 1) * 20 = 21474836480 ∧
    (0 : Int) ≠ 21474836480 ∧
    (GetNews envMiss reqC7).result = .ok [newsToResponse rowA] := by
  refine ⟨by decide, by decide, by decide, by decide⟩

/-- Claim C7 (amended): for every valid request that reaches storage,
`GetNews` queries with limit = pageSize and offset = (page−1)×pageSize
computed in wrapping 32-bit arithmetic — equal to the mathematical product
whenever it is below 2^31 — and any list returned from storage has at most
pageSize records, every record's source in the filter set, and rows ordered
by publish time descending (nulls first). -/
theorem c7_storage_query (env : QueryEnv) (req : NewsListGetRequest)
    (hs : req.source.length ≠ 0) (hq : (GetNews env req).dbQuery ≠ none) :
    (GetNews env req).dbQuery = some ⟨req.source,
      wrap32 ((normalizePage req.page - 1) * normalizeLimit req.limit),
      normalizeLimit req.limit⟩ ∧
    (0 ≤ (normalizePage req.page - 1) * normalizeLimit req.limit ∧
      ((normalizePage req.page - 1) * normalizeLimit req.limit < 2 ^ 31 →
        wrap32 ((normalizePage req.page - 1) * normalizeLimit req.limit) =
          (normalizePage req.page - 1) * normalizeLimit req.limit)) ∧
    (∀ resps, (GetNews env req).result = .ok resps →
      resps.length ≤ (normalizeLimit req.limit).toNat ∧
      (∀ x ∈ resps, x.source ∈ req.source) ∧
      ∃ rows, resps = rows.map newsToResponse ∧ List.Sorted pubDescRow rows) := by
  have hpos : 0 ≤ (normalizePage req.page - 1) * normalizeLimit req.limit := by
    have h1 := normalizePage_pos req.page
    have h2 := (normalizeLimit_bounds req.limit).1
    exact mul_nonneg (by omega) (by omega)
  rcases GetNews_shape env req hs with ⟨v, hv, hlen, heq⟩ | heq
  · rw [heq] at hq
    simp at hq
  · refine ⟨?_, ⟨hpos, fun hlt => wrap32_eq_self _ hpos hlt⟩, ?_⟩
    · rw [heq]
      exact (GetNewsFromDb_accesses env _ _).2
    · intro resps hres
      rw [heq] at hres
      obtain ⟨rows, hrows, hmap⟩ := GetNewsFromDb_ok env _ _ resps hres
      obtain ⟨hl1, hl2, hl3⟩ := ListNews_ok_spec env.table _ rows hrows
      subst hmap
      refine ⟨by simpa using hl1, ?_, rows, rfl, hl3⟩
      intro x hx
      rcases List.mem_map.mp hx with ⟨r, hr, hxr⟩
      rw [← hxr]
      simpa [newsToResponse] using hl2 r hr

/-- Witness for the amended C7 on an ordinary request: page 2, limit 20,
filter `["a"]`, served from storage. -/
theorem c7_witness :
    (GetNews envMiss reqA).dbQuery = some ⟨reqA.source,
      wrap32 ((normalizePage reqA.page - 1) * normalizeLimit reqA.limit),
      normalizeLimit reqA.limit⟩ ∧
    (0 ≤ (normalizePage reqA.page - 1) * normalizeLimit reqA.limit ∧
      ((normalizePage reqA.page - 1) * normalizeLimit reqA.limit < 2 ^ 31 →
        wrap32 ((normalizePage reqA.page - 1) * normalizeLimit reqA.limit) =
          (normalizePage reqA.page - 1) * normalizeLimit reqA.limit)) ∧
    (∀ resps, (GetNews envMiss reqA).result = .ok resps →
      resps.length ≤ (normalizeLimit reqA.limit).toNat ∧
      (∀ x ∈ resps, x.source ∈ reqA.source) ∧
      ∃ rows, resps = rows.map newsToResponse ∧ List.Sorted pubDescRow rows) :=
  c7_storage_query envMiss reqA (by decide) (by decide)

/-- Claim C8: normalization of a raw feed item follows the image precedence
explicit feed image, else first enclosure URL, else the src of the first
img tag of the description (or of the content when the description is
empty), else empty; and the link becomes the last pipe-delimited segment
when the raw link contains a pipe, and stays unchanged otherwise. -/
theorem c8_item_normalization (firstImgSrc : String → Option String)
    (item : RawItem) (raw : String) :
    (∀ img, item.image = some img → extractImage firstImgSrc item = img.url) ∧
    (item.image = none → ∀ e es, item.enclosures = e :: es →
      extractImage firstImgSrc item = e.url) ∧
    (item.image = none → item.enclosures = [] →
      (((if item.description = "" then item.content else item.description) ≠ "") →
        extractImage firstImgSrc item =
          (firstImgSrc
            (if item.description = "" then item.content else item.description)).getD "") ∧
      (((if item.description = "" then item.content else item.description) = "") →
        extractImage firstImgSrc item = "")) ∧
    ('|' ∈ raw.data → sanitizeLink raw = String.mk ((splitOnPipe raw.data).getLastD [])) ∧
    ('|' ∉ raw.data → sanitizeLink raw = raw) := by
  refine ⟨?_, ?_, ?_, ?_, ?_⟩
  · intro img himg
    simp [extractImage, himg]
  · intro hnone e es hen
    simp [extractImage, hnone, hen]
  · intro hnone hen
    constructor
    · intro hhtml
      rcases ho : firstImgSrc (if item.description = "" then item.content else item.description)
          with _ | src <;>
        simp [extractImage, hnone, hen, hhtml, ho]
    · intro hhtml
      simp [extractImage, hnone, hen, hhtml]
  · intro hmem
    have hraw : ¬raw = "" := by
      intro h
      subst h
      exact absurd hmem (by decide)
    unfold sanitizeLink
    rw [if_neg hraw]
    have h1 := (one_lt_splitOnPipe_length raw.data).mpr hmem
    simp [h1]
  · intro hmem
    by_cases hraw : raw = ""
    · subst hraw
      rfl
    · unfold sanitizeLink
      rw [if_neg hraw]
      have h1 : ¬1 < (splitOnPipe raw.data).length := by
        rw [one_lt_splitOnPipe_length]
        exact hmem
      simp [h1]

/-- Witness for C8: the enclosure URL wins when there is no explicit feed
image, and a composite pipe-delimited link is cut down to its last segment. -/
theorem c8_witness :
    extractImage (fun _ => none) itemEnc = "https://cdn/img.png" ∧
    sanitizeLink "20250101|https://macthai.com/story" = "https://macthai.com/story" := by
  constructor
  · exact (c8_item_normalization (fun _ => none) itemEnc "x").2.1 rfl
      ⟨"https://cdn/img.png"⟩ [] rfl
  · rw [(c8_item_normalization (fun _ => none) itemEnc
      "20250101|https://macthai.com/story").2.2.2.1 (by decide)]
    decide

/-- Claim C9: cache invalidation is attempted only after batch persistence
has completed successfully and is the last step before the run reports
success; a successful run implies the invalidation happened and succeeded;
and when invalidation fails the run returns an error even though the rows
persisted by the batch inserts are kept (not rolled back). -/
theorem c9_invalidation_order (env : CollectEnv) (db : Db) (cache : List String) :
    (RunEvent.invalidate ∈ (CollectNewsFromSource env db cache).events →
      ∃ srcs, env.catalog = .ok srcs ∧ env.timedOut = false ∧
        (insertNewsWithBatch env.batchFail db (mergedItems env srcs)).2.2 = none ∧
        (CollectNewsFromSource env db cache).events =
          (insertNewsWithBatch env.batchFail db (mergedItems env srcs)).2.1.map
            RunEvent.persist ++ [RunEvent.invalidate]) ∧
    ((CollectNewsFromSource env db cache).result = .ok () →
      RunEvent.invalidate ∈ (CollectNewsFromSource env db cache).events ∧
        env.invalidateOk = true) ∧
    (RunEvent.invalidate ∈ (CollectNewsFromSource env db cache).events →
      env.invalidateOk = false →
      (CollectNewsFromSource env db cache).result = .error .cacheError ∧
      ∃ srcs, env.catalog = .ok srcs ∧
        (CollectNewsFromSource env db cache).db =
          (insertNewsWithBatch env.batchFail db (mergedItems env srcs)).1) := by
  unfold CollectNewsFromSource
  rcases hcat : env.catalog with e | srcs
  · exact ⟨fun h => absurd h (by simp), fun h => by simp at h, fun h => absurd h (by simp)⟩
  · cases hto : env.timedOut
    · rcases hins : (insertNewsWithBatch env.batchFail db (mergedItems env srcs)).2.2
          with _ | e <;> simp only [hins]
      · cases hinv : env.invalidateOk
        · refine ⟨fun _ => ⟨srcs, ?_, ?_, ?_, ?_⟩, fun h => by simp at h,
            fun _ _ => ⟨?_, srcs, ?_, ?_⟩⟩ <;> simp [hins]
        · refine ⟨fun _ => ⟨srcs, ?_, ?_, ?_, ?_⟩, fun _ => ⟨?_, ?_⟩,
            fun _ hfalse => by simp at hfalse⟩ <;> simp [hins]
      · exact ⟨fun h => absurd h (invalidate_not_mem_persist _), fun h => by simp at h,
          fun h => absurd h (invalidate_not_mem_persist _)⟩
    · exact ⟨fun h => absurd h (by simp), fun h => by simp at h, fun h => absurd h (by simp)⟩

/-- Witness for C9: a run whose persistence succeeds but whose cache purge
fails returns the cache error while keeping the persisted rows. -/
theorem c9_witness :
    (CollectNewsFromSource envC9 [] ["news:k1", "other"]).result = .error .cacheError ∧
    ∃ srcs, envC9.catalog = .ok srcs ∧
      (CollectNewsFromSource envC9 [] ["news:k1", "other"]).db =
        (insertNewsWithBatch envC9.batchFail [] (mergedItems envC9 srcs)).1 :=
  (c9_invalidation_order envC9 [] ["news:k1", "other"]).2.2 (by decide) rfl

/-- Claim C10: a run whose catalog read succeeds but whose sources
contribute zero records performs no storage insert at all (the batch
insert on an empty collection executes zero batches and succeeds), still
purges every news cache key, and reports success. -/
theorem c10_empty_run (env : CollectEnv) (db : Db) (cache : List String)
    (srcs : List Source) (hcat : env.catalog = .ok srcs) (hto : env.timedOut = false)
    (hempty : mergedItems env srcs = []) (hinv : env.invalidateOk = true) :
    insertNewsWithBatch env.batchFail db [] = (db, [], none) ∧
    CollectNewsFromSource env db cache =
      ⟨.ok (), db, RemoveKeyContaining cache "news", [RunEvent.invalidate]⟩ ∧
    (∀ k ∈ RemoveKeyContaining cache "news", ¬("news".data <:+: k.data)) := by
  refine ⟨rfl, ?_, RemoveKeyContaining_spec cache "news"⟩
  unfold CollectNewsFromSource
  rw [hcat]
  simp only [hto, Bool.false_eq_true, if_false, hempty, hinv, if_true]
  rfl

/-- Witness for C10: one source contributing zero records, a cache holding
one news key and one unrelated key. -/
theorem c10_witness :
    insertNewsWithBatch envC10.batchFail [] [] = ([], [], none) ∧
    CollectNewsFromSource envC10 [] cacheC10 =
      ⟨.ok (), [], RemoveKeyContaining cacheC10 "news", [RunEvent.invalidate]⟩ ∧
    (∀ k ∈ RemoveKeyContaining cacheC10 "news", ¬("news".data <:+: k.data)) :=
  c10_empty_run envC10 [] cacheC10 [srcMacThai] rfl rfl rfl rfl
